import Mathlib

/-
  Verification development for the BotLogging repository
  (src/botlog/embed.py and src/botlog/logger.py).

  The Python code is shallowly embedded: Python values flowing through the
  logger (kwargs values, object attributes, diff entries) are modelled by the
  inductive type PyVal; Python exceptions are modelled by Except String;
  the Discord side effects (console logging, channel lookup, owner lookup,
  message sending) are modelled by an explicit environment BotEnv and an
  action trace.
-/

/-- Model of the Python values handled by the logger: None, bools, ints,
strings, lists, and attribute-bearing objects (attribute name to value). -/
inductive PyVal where
  | none : PyVal
  | bool : Bool → PyVal
  | int : Int → PyVal
  | str : String → PyVal
  | list : List PyVal → PyVal
  | obj : List (String × PyVal) → PyVal

/-- Python truthiness: None, False, 0, "", [] are falsy; objects are truthy. -/
def truthy : PyVal → Bool
  | PyVal.none => false
  | PyVal.bool b => b
  | PyVal.int n => !(n == 0)
  | PyVal.str s => !(s == "")
  | PyVal.list xs => !xs.isEmpty
  | PyVal.obj _ => true

mutual

/-- Model of Python equality (==) on the embedded values.  Python's
bool-is-int cross equality (True == 1) is included; objects are compared
structurally in the model. -/
def pyEq : PyVal → PyVal → Bool
  | PyVal.none, PyVal.none => true
  | PyVal.bool a, PyVal.bool b => a == b
  | PyVal.bool a, PyVal.int n => (if a then (1 : Int) else 0) == n
  | PyVal.int n, PyVal.bool a => n == (if a then (1 : Int) else 0)
  | PyVal.int m, PyVal.int n => m == n
  | PyVal.str a, PyVal.str b => a == b
  | PyVal.list xs, PyVal.list ys => pyEqList xs ys
  | PyVal.obj xs, PyVal.obj ys => pyEqKw xs ys
  | _, _ => false

/-- Elementwise Python equality of lists. -/
def pyEqList : List PyVal → List PyVal → Bool
  | [], [] => true
  | a :: as, b :: bs => pyEq a b && pyEqList as bs
  | _, _ => false

/-- Pairwise Python equality of attribute maps. -/
def pyEqKw : List (String × PyVal) → List (String × PyVal) → Bool
  | [], [] => true
  | (k, a) :: as, (l, b) :: bs => k == l && pyEq a b && pyEqKw as bs
  | _, _ => false

end

mutual

/-- Model of Python str() on the embedded values. -/
def pyStr : PyVal → String
  | PyVal.none => "None"
  | PyVal.bool true => "True"
  | PyVal.bool false => "False"
  | PyVal.int n => toString n
  | PyVal.str s => s
  | PyVal.list xs => "[" ++ pyStrList xs ++ "]"
  | PyVal.obj _ => "<object>"

/-- Comma-separated str() forms of a list of values. -/
def pyStrList : List PyVal → String
  | [] => ""
  | [x] => pyStr x
  | x :: y :: xs => pyStr x ++ ", " ++ pyStrList (y :: xs)

end

/-- Model of str.lower() (String.toLower does not reduce in the kernel). -/
def strLower (s : String) : String := String.mk (s.data.map Char.toLower)

/-- Model of str.upper(). -/
def strUpper (s : String) : String := String.mk (s.data.map Char.toUpper)

/-- Model of the character slice s[:n]. -/
def strTake (s : String) (n : Nat) : String := String.mk (s.data.take n)

/-- Keyword-argument bags (Python **kwargs dicts). -/
abbrev Kwargs := List (String × PyVal)

/-- Model of dict.get(key) returning the stored value when present. -/
def getKw : Kwargs → String → Option PyVal
  | [], _ => Option.none
  | (k, v) :: rest, key => if k = key then Option.some v else getKw rest key

/-- Model of dict[key] = v (replace any existing binding). -/
def setKw (kw : Kwargs) (key : String) (v : PyVal) : Kwargs :=
  (kw.filter (fun p => p.1 ≠ key)) ++ [(key, v)]

/-- Model of dict.pop(key, None): the popped value (if any) and the rest. -/
def popKw (kw : Kwargs) (key : String) : Option PyVal × Kwargs :=
  (getKw kw key, kw.filter (fun p => p.1 ≠ key))

/-- Model of getattr(v, attr): attribute access that raises AttributeError
when the attribute is missing or the value carries no such attribute
(the attributes the logger reads do not exist on None/str/int/list). -/
def pyGetAttr (v : PyVal) (attr : String) : Except String PyVal :=
  match v with
  | PyVal.obj attrs =>
    match getKw attrs attr with
    | Option.some x => Except.ok x
    | Option.none => Except.error ("AttributeError: " ++ attr)
  | _ => Except.error ("AttributeError: " ++ attr)

/-- Model of getattr(v, attr, default): total attribute access. -/
def pyGetAttrD (v : PyVal) (attr : String) (dflt : PyVal) : PyVal :=
  match v with
  | PyVal.obj attrs =>
    match getKw attrs attr with
    | Option.some x => x
    | Option.none => dflt
  | _ => dflt

/-- Model of int(v): conversion that raises on non-numeric values. -/
def pyToInt (v : PyVal) : Except String Int :=
  match v with
  | PyVal.int n => Except.ok n
  | PyVal.bool b => Except.ok (if b then 1 else 0)
  | PyVal.str s =>
    match s.toInt? with
    | Option.some n => Except.ok n
    | Option.none => Except.error "ValueError: invalid literal for int"
  | _ => Except.error "TypeError: int argument must be a number"

/-- Model of len(v): defined on strings and lists, raising otherwise. -/
def pyLen (v : PyVal) : Except String Nat :=
  match v with
  | PyVal.str s => Except.ok s.length
  | PyVal.list xs => Except.ok xs.length
  | _ => Except.error "TypeError: object has no len"

/-- Model of iteration over v: lists yield elements, strings yield
one-character strings, anything else raises. -/
def pyIter (v : PyVal) : Except String (List PyVal) :=
  match v with
  | PyVal.list xs => Except.ok xs
  | PyVal.str s => Except.ok (s.data.map (fun c => PyVal.str (String.singleton c)))
  | _ => Except.error "TypeError: object is not iterable"

/-- Whether a value is a Python list. -/
def isList : PyVal → Bool
  | PyVal.list _ => true
  | _ => false

/-- Whether a value is a Python string. -/
def isStr : PyVal → Bool
  | PyVal.str _ => true
  | _ => false

/-- Membership up to Python equality (used to model set operations). -/
def elemPy (x : PyVal) (xs : List PyVal) : Bool :=
  xs.any (fun y => pyEq x y)

/-- Deduplication worker: keep elements not seen before (up to Python
equality), accumulating the seen ones. -/
def dedupPyAux (seen : List PyVal) : List PyVal → List PyVal
  | [] => []
  | x :: xs =>
    if elemPy x seen then dedupPyAux seen xs
    else x :: dedupPyAux (seen ++ [x]) xs

/-- Deduplication up to Python equality, keeping first occurrences
(models the element set of a Python set built from a list). -/
def dedupPy (xs : List PyVal) : List PyVal := dedupPyAux [] xs

/-- Model of set(v): iterate and deduplicate; lists are unhashable. -/
def pySet (v : PyVal) : Except String (List PyVal) :=
  match pyIter v with
  | Except.error e => Except.error e
  | Except.ok xs =>
    if xs.any isList then Except.error "TypeError: unhashable type"
    else Except.ok (dedupPy xs)

/-- Model of ",".join(xs): every element must already be a string. -/
def pyJoinComma (xs : List PyVal) : Except String String :=
  if xs.all isStr then Except.ok (String.intercalate "," (xs.map pyStr))
  else Except.error "TypeError: sequence item is not a string"

/-- The fixed discord colors used by the five embed classes in embed.py. -/
inductive LogColor where
  | green : LogColor
  | darkGreen : LogColor
  | gold : LogColor
  | red : LogColor
  | blurple : LogColor
deriving DecidableEq

/-- Model of discord.Embed as built by embed.py and decorated by logger.py:
title, description, color, optional timestamp, ordered named fields. -/
structure Embed where
  title : String
  description : Option String
  color : LogColor
  timestamp : Option PyVal
  fields : List (String × PyVal)

/-- LogEmbed.__init__: title is the class title uppercased, description is
the message, color is the class color; no timestamp or fields yet. -/
def mkEmbed (title : String) (color : LogColor) (message : Option String) : Embed :=
  { title := strUpper title, description := message, color := color,
    timestamp := Option.none, fields := [] }

/-- Embed.add_field. -/
def addField (e : Embed) (name : String) (value : PyVal) : Embed :=
  { e with fields := e.fields ++ [(name, value)] }

/-- embed.py generate_log_embed: lowercase the level, pick the embed class
for the five known levels, raise ValueError otherwise. -/
def generate_log_embed (message : Option String) (level : String) : Except String Embed :=
  let levelL := strLower level
  if levelL = "info" then Except.ok (mkEmbed "info" LogColor.green message)
  else if levelL = "debug" then Except.ok (mkEmbed "debug" LogColor.darkGreen message)
  else if levelL = "warning" then Except.ok (mkEmbed "warning" LogColor.gold message)
  else if levelL = "error" then Except.ok (mkEmbed "error" LogColor.red message)
  else if levelL = "event" then Except.ok (mkEmbed "event" LogColor.blurple message)
  else Except.error "invalid log level provided"

example : generate_log_embed (Option.some "x") "info" =
    Except.ok { title := "INFO", description := Option.some "x",
                color := LogColor.green, timestamp := Option.none, fields := [] } := rfl

example : generate_log_embed (Option.some "x") "INFO" =
    Except.ok { title := "INFO", description := Option.some "x",
                color := LogColor.green, timestamp := Option.none, fields := [] } := rfl

example : generate_log_embed (Option.some "x") "nope" =
    Except.error "invalid log level provided" := rfl

/-- BotLogger.get_server_text: pick the explicit guild or the upper
object's guild attribute; render "name (id)" or "DM".  The name/id reads
are direct attribute accesses and may raise. -/
def get_server_text (upper : PyVal) (guild : PyVal) : Except String String :=
  let g := if truthy guild then guild else pyGetAttrD upper "guild" PyVal.none
  if truthy g then
    match pyGetAttr g "name" with
    | Except.error e => Except.error e
    | Except.ok n =>
      match pyGetAttr g "id" with
      | Except.error e => Except.error e
      | Except.ok i => Except.ok (pyStr n ++ " (" ++ pyStr i ++ ")")
  else Except.ok "DM"

/-- BotLogger.get_object_diff: for each attribute, read it from the after
snapshot (default None), skip if falsy; read it from the before snapshot,
skip if falsy; include the pair when the two values are unequal. -/
def get_object_diff (before after : PyVal) (attrs_to_check : List String) :
    List (String × PyVal × PyVal) :=
  match attrs_to_check with
  | [] => []
  | attr :: rest =>
    let after_value := pyGetAttrD after attr PyVal.none
    if !truthy after_value then get_object_diff before after rest
    else
      let before_value := pyGetAttrD before attr PyVal.none
      if !truthy before_value then get_object_diff before after rest
      else if !pyEq before_value after_value then
        (attr, before_value, after_value) :: get_object_diff before after rest
      else get_object_diff before after rest

/-- Symmetric difference of two deduplicated element lists, modelling
set(after) ^ set(before) (elements in exactly one of the two sets). -/
def pySymmDiff (aset bset : List PyVal) : List PyVal :=
  aset.filter (fun x => !elemPy x bset) ++ bset.filter (fun x => !elemPy x aset)

/-- BotLogger.add_diff_fields: list-valued before entries produce a single
"ATTR added"/"ATTR removed" field holding the comma-joined str() forms of
the symmetric difference; other entries produce raw before/after fields. -/
def add_diff_fields (embed : Embed) (diff : List (String × PyVal × PyVal)) :
    Except String Embed :=
  match diff with
  | [] => Except.ok embed
  | (attr, before_v, after_v) :: rest =>
    let attru := strUpper attr
    match before_v with
    | PyVal.list bl =>
      (match pyLen after_v with
       | Except.error e => Except.error e
       | Except.ok alen =>
         let action := if bl.length < alen then "added" else "removed"
         match pySet after_v with
         | Except.error e => Except.error e
         | Except.ok aset =>
           match pySet (PyVal.list bl) with
           | Except.error e => Except.error e
           | Except.ok bset =>
             let list_diff := pySymmDiff aset bset
             let value := String.intercalate "," (list_diff.map pyStr)
             add_diff_fields (addField embed (attru ++ " " ++ action) (PyVal.str value)) rest)
    | bv =>
      add_diff_fields
        (addField (addField embed (attru ++ " (before)") bv) (attru ++ " (after)") after_v)
        rest

/-- The fields that one diff entry contributes, written after the spec
sentence for render_diff_fields (spec section 4.2): list-valued entries give
one added/removed field keyed by length comparison with the comma-joined
symmetric difference; other entries give a before field and an after field. -/
def specFieldsOf : String × PyVal × PyVal → List (String × PyVal)
  | (attr, PyVal.list bl, PyVal.list al) =>
    [(strUpper attr ++ " " ++ (if bl.length < al.length then "added" else "removed"),
      PyVal.str (String.intercalate "," ((pySymmDiff (dedupPy al) (dedupPy bl)).map pyStr)))]
  | (_, PyVal.list _, _) => []
  | (attr, bv, av) =>
    [(strUpper attr ++ " (before)", bv), (strUpper attr ++ " (after)", av)]

/-- Spec-side rendering of a whole diff (spec section 4.2): the fields of
the entries in the diff's iteration order, appended to the embed. -/
def add_diff_fields_spec (embed : Embed) (diff : List (String × PyVal × PyVal)) : Embed :=
  { embed with fields := embed.fields ++ diff.flatMap specFieldsOf }

/-- Well-formedness of a diff entry for the list-rendering claim: a
list-valued before value comes with a list-valued after value and neither
list nests further lists (Python sets would reject unhashable elements). -/
def wfDiffEntry : String × PyVal × PyVal → Bool
  | (_, PyVal.list bl, PyVal.list al) => !(bl.any isList) && !(al.any isList)
  | (_, PyVal.list _, _) => false
  | _ => true

example :
    add_diff_fields (mkEmbed "event" LogColor.blurple (Option.some "m"))
      [("roles", PyVal.list [PyVal.int 1, PyVal.int 2],
        PyVal.list [PyVal.int 1, PyVal.int 2, PyVal.int 3])] =
    Except.ok { title := "EVENT", description := Option.some "m",
                color := LogColor.blurple, timestamp := Option.none,
                fields := [("ROLES added", PyVal.str "3")] } := rfl

example :
    add_diff_fields (mkEmbed "event" LogColor.blurple (Option.some "m"))
      [("name", PyVal.str "A", PyVal.str "B")] =
    Except.ok { title := "EVENT", description := Option.some "m",
                color := LogColor.blurple, timestamp := Option.none,
                fields := [("NAME (before)", PyVal.str "A"),
                           ("NAME (after)", PyVal.str "B")] } := rfl

/-- A resolved Discord delivery target (a channel or the fallback owner):
its mention string and, for channels, the guild owner mention used by
critical error logs. -/
structure Target where
  tid : Int
  mention : String
  guildOwnerMention : String

/-- Outcome of one call to the Discord send primitive. -/
inductive SendOutcome where
  | ok : SendOutcome
  | forbidden : SendOutcome
  | err : String → SendOutcome

/-- The external collaborators of BotLogger: the global send flag, channel
lookup by ID, the owner fallback, the per-send-call outcomes (indexed by the
number of sends already attempted in the handler), the current UTC time and
the traceback formatter. -/
structure BotEnv where
  sendFlag : Bool
  channels : Int → Option Target
  owner : Option Target
  sendOutcome : Nat → SendOutcome
  nowTime : PyVal
  formatException : PyVal → String

/-- Observable effects of a handler: console logging calls (logger method
name and message), embed sends, and plain-text sends. -/
inductive LogAction where
  | console : String → String → LogAction
  | sent : Target → Option String → Embed → LogAction
  | sentText : Target → String → LogAction

/-- What the console logging call prints for an optional message. -/
def consoleStr : Option String → String
  | Option.some s => s
  | Option.none => "None"

/-- BotLogger.DEFAULT_LOG_SEND: most logs should not send out. -/
def DEFAULT_LOG_SEND : Bool := false

/-- BotLogger.DEFAULT_ERROR_LOG_SEND: most error logs should send out. -/
def DEFAULT_ERROR_LOG_SEND : Bool := true

/-- BotLogger._is_console_only: console-only when sending is disabled
globally, or when the effective send option (kwargs send, defaulting per
error/non-error class) is falsy. -/
def is_console_only (sendFlag : Bool) (kwargs : Kwargs) (is_error : Bool) : Bool :=
  if !sendFlag then true
  else !truthy ((getKw kwargs "send").getD
    (PyVal.bool (if is_error then DEFAULT_ERROR_LOG_SEND else DEFAULT_LOG_SEND)))

/-- Channel resolution shared by the handlers:
bot.get_channel(int(channel_id)) if channel_id else None. -/
def resolveChannel (env : BotEnv) (channel_id : PyVal) : Except String (Option Target) :=
  if truthy channel_id then
    match pyToInt channel_id with
    | Except.ok cid => Except.ok (env.channels cid)
    | Except.error e => Except.error e
  else Except.ok Option.none

/-- BotLogger.handle_generic_log: console output, console-only gate, channel
then owner target resolution (warning when neither resolves), embed build,
timestamp from the time kwarg (defaulting to now), send with Forbidden
swallowed. -/
def handle_generic_log (env : BotEnv) (message : Option String) (level_ : String)
    (kwargs : Kwargs) : Except String (List LogAction) :=
  let console_only := is_console_only env.sendFlag kwargs false
  let channel_id := (getKw kwargs "channel").getD PyVal.none
  let acts := [LogAction.console level_ (consoleStr message)]
  if console_only then Except.ok acts
  else
    match resolveChannel env channel_id with
    | Except.error e => Except.error e
    | Except.ok channel =>
      let target := match channel with
        | Option.some c => Option.some c
        | Option.none => env.owner
      match target with
      | Option.none =>
        Except.ok (acts ++ [LogAction.console "warning"
          ("Could not determine Discord target to send " ++ level_ ++ " log")])
      | Option.some t =>
        match generate_log_embed message level_ with
        | Except.error e => Except.error e
        | Except.ok embed0 =>
          let embed := { embed0 with
            timestamp := Option.some ((getKw kwargs "time").getD env.nowTime) }
          match env.sendOutcome 0 with
          | SendOutcome.ok => Except.ok (acts ++ [LogAction.sent t Option.none embed])
          | SendOutcome.forbidden => Except.ok acts
          | SendOutcome.err e => Except.error e

/-- BotLogger.handle_error_log: console output, console-only gate, traceback
formatting truncated to 1992 characters, embed build and timestamp, channel
resolution, critical mention (note: when the channel is absent the code
reads target.mention before checking that the owner target exists), target
check, then the two sends with Forbidden swallowed. -/
def handle_error_log (env : BotEnv) (message : Option String) (kwargs : Kwargs) :
    Except String (List LogAction) :=
  let exception := (getKw kwargs "exception").getD PyVal.none
  let critical := (getKw kwargs "critical").getD PyVal.none
  let channel_id := (getKw kwargs "channel").getD PyVal.none
  let console_only := is_console_only env.sendFlag kwargs true
  let acts := [LogAction.console "error" (consoleStr message)]
  if console_only then Except.ok acts
  else
    let exception_string := strTake (env.formatException exception) 1992
    match generate_log_embed message "error" with
    | Except.error e => Except.error e
    | Except.ok embed0 =>
      let embed := { embed0 with
        timestamp := Option.some ((getKw kwargs "time").getD env.nowTime) }
      match resolveChannel env channel_id with
      | Except.error e => Except.error e
      | Except.ok channel =>
        let tcRes : Except String (Option Target × Option String) :=
          match channel with
          | Option.some ch =>
            Except.ok (Option.some ch,
              if truthy critical then Option.some ch.guildOwnerMention else Option.none)
          | Option.none =>
            match env.owner with
            | Option.some t =>
              Except.ok (Option.some t,
                if truthy critical then Option.some t.mention else Option.none)
            | Option.none =>
              if truthy critical then
                Except.error "AttributeError: NoneType object has no attribute mention"
              else Except.ok (Option.none, Option.none)
        match tcRes with
        | Except.error e => Except.error e
        | Except.ok (target, content) =>
          match target with
          | Option.none =>
            Except.ok (acts ++ [LogAction.console "warning"
              "Could not determine Discord target to send ERROR log"])
          | Option.some t =>
            match env.sendOutcome 0 with
            | SendOutcome.forbidden => Except.ok acts
            | SendOutcome.err e => Except.error e
            | SendOutcome.ok =>
              match env.sendOutcome 1 with
              | SendOutcome.forbidden =>
                Except.ok (acts ++ [LogAction.sent t content embed])
              | SendOutcome.err e => Except.error e
              | SendOutcome.ok =>
                Except.ok (acts ++ [LogAction.sent t content embed,
                  LogAction.sentText t ("```py\n" ++ exception_string ++ "```")])

/-- An event renderer: keyword data to (summary message, embed), either of
which may be absent; any Python exception is an error. -/
abbrev EventRenderer := Kwargs → Except String (Option PyVal × Option Embed)

/-- BotLogger.render_default_event: a generic "New event: <event_type>"
message with an event-level embed. -/
def render_default_event (kwargs : Kwargs) : Except String (Option PyVal × Option Embed) :=
  let event_type := (getKw kwargs "event_type").getD PyVal.none
  let message := "New event: " ++ pyStr event_type
  match generate_log_embed (Option.some message) "event" with
  | Except.error e => Except.error e
  | Except.ok embed => Except.ok (Option.some (PyVal.str message), Option.some embed)

/-- BotLogger.generate_event_data: store event_type into kwargs, look up the
render_<event_type>_event method (falling back to the default renderer),
run it, and on any renderer exception log a console error and rerun the
default renderer. -/
def generate_event_data (render_lookup : String → Option EventRenderer)
    (event_type : PyVal) (kwargs : Kwargs) :
    Except String (List LogAction × (Option PyVal × Option Embed)) :=
  let kwargs2 := setKw kwargs "event_type" event_type
  match render_lookup (pyStr event_type) with
  | Option.some f =>
    match f kwargs2 with
    | Except.ok p => Except.ok ([], p)
    | Except.error e =>
      match render_default_event kwargs2 with
      | Except.ok p =>
        Except.ok ([LogAction.console "error"
          ("Could not render event data: " ++ e ++ " (using default render)")], p)
      | Except.error e2 => Except.error e2
  | Option.none =>
    match render_default_event kwargs2 with
    | Except.ok p => Except.ok ([], p)
    | Except.error e2 => Except.error e2

/-- BotLogger.render_reaction_clear_event, translated statement by
statement.  The local variable message is first the message object from
kwargs, then rebound to the summary string; the later reads of
message.content, message.author and message.channel therefore run on a
string. -/
def render_reaction_clear_event (kwargs : Kwargs) :
    Except String (Option PyVal × Option Embed) :=
  let message := (getKw kwargs "message").getD PyVal.none
  let reactions := (getKw kwargs "reactions").getD PyVal.none
  match pyGetAttr message "channel" with
  | Except.error e => Except.error e
  | Except.ok chan =>
    match get_server_text chan PyVal.none with
    | Except.error e => Except.error e
    | Except.ok server_text =>
      match pyLen reactions with
      | Except.error e => Except.error e
      | Except.ok n =>
        match pyGetAttr message "id" with
        | Except.error e => Except.error e
        | Except.ok mid =>
          let message2 := PyVal.str
            (toString n ++ " cleared from message with ID " ++ pyStr mid)
          match pyIter reactions with
          | Except.error e => Except.error e
          | Except.ok rs =>
            match rs.mapM (fun r => pyGetAttr r "emoji") with
            | Except.error e => Except.error e
            | Except.ok emojis =>
              let unique_emojis := dedupPy emojis
              match generate_log_embed (Option.some (pyStr message2)) "event" with
              | Except.error e => Except.error e
              | Except.ok embed0 =>
                match pyJoinComma unique_emojis with
                | Except.error e => Except.error e
                | Except.ok joined =>
                  let embed1 := addField embed0 "Emojis" (PyVal.str joined)
                  match pyGetAttr message2 "content" with
                  | Except.error e => Except.error e
                  | Except.ok content =>
                    let embed2 := addField embed1 "Message"
                      (if truthy content then content else PyVal.str "None")
                    match pyGetAttr message2 "author" with
                    | Except.error e => Except.error e
                    | Except.ok author =>
                      let embed3 := addField embed2 "Message Author" author
                      match pyGetAttr message2 "channel" with
                      | Except.error e => Except.error e
                      | Except.ok chan2 =>
                        let embed4 := addField embed3 "Channel"
                          (pyGetAttrD chan2 "name" (PyVal.str "DM"))
                        let embed5 := addField embed4 "Server" (PyVal.str server_text)
                        Except.ok (Option.some message2, Option.some embed5)

/-- BotLogger.handle_event_log: render the event data, suppress when the
message is falsy, log to console at info, console-only gate, target
resolution, suppress when the embed is absent, timestamp, send with
Forbidden swallowed. -/
def handle_event_log (env : BotEnv) (render_lookup : String → Option EventRenderer)
    (event_type : PyVal) (kwargs : Kwargs) : Except String (List LogAction) :=
  let console_only := is_console_only env.sendFlag kwargs false
  let channel_id := (getKw kwargs "channel").getD PyVal.none
  match generate_event_data render_lookup event_type kwargs with
  | Except.error e => Except.error e
  | Except.ok (racts, (msgOpt, embedOpt)) =>
    let message := msgOpt.getD PyVal.none
    if !truthy message then Except.ok racts
    else
      let acts := racts ++ [LogAction.console "info" (pyStr message)]
      if console_only then Except.ok acts
      else
        match resolveChannel env channel_id with
        | Except.error e => Except.error e
        | Except.ok channel =>
          let target := match channel with
            | Option.some c => Option.some c
            | Option.none => env.owner
          match target with
          | Option.none =>
            Except.ok (acts ++ [LogAction.console "warning"
              "Could not determine Discord target to send EVENT log"])
          | Option.some t =>
            match embedOpt with
            | Option.none => Except.ok acts
            | Option.some embed0 =>
              let embed := { embed0 with
                timestamp := Option.some ((getKw kwargs "time").getD env.nowTime) }
              match env.sendOutcome 0 with
              | SendOutcome.ok => Except.ok (acts ++ [LogAction.sent t Option.none embed])
              | SendOutcome.forbidden => Except.ok acts
              | SendOutcome.err e => Except.error e

/-- DelayedLog: a queued log intent.  The constructor stores level, message,
positional args and keyword args, and then unconditionally stamps
kwargs["time"] with the current UTC time (the now argument). -/
structure DelayedLog where
  level : String
  message : Option String
  args : List PyVal
  kwargs : Kwargs

/-- DelayedLog.__init__ with utcnow() passed explicitly. -/
def DelayedLog.init (level : String) (log_message : Option String)
    (args : List PyVal) (kwargs : Kwargs) (now : PyVal) : DelayedLog :=
  { level := level, message := log_message, args := args,
    kwargs := setKw kwargs "time" now }

/-- BotLogger.handle_queue_log on one dequeued record: dispatch by level to
the matching handler; an event record must carry a truthy event_type or an
AttributeError is raised; unknown levels only produce a console warning. -/
def handle_queue_log (env : BotEnv) (render_lookup : String → Option EventRenderer)
    (log_data : DelayedLog) : Except String (List LogAction) :=
  if log_data.level = "info" then
    handle_generic_log env log_data.message "info" log_data.kwargs
  else if log_data.level = "debug" then
    handle_generic_log env log_data.message "debug" log_data.kwargs
  else if log_data.level = "warning" then
    handle_generic_log env log_data.message "warning" log_data.kwargs
  else if log_data.level = "event" then
    let popped := popKw log_data.kwargs "event_type"
    let event_type := popped.1.getD PyVal.none
    if !truthy event_type then
      Except.error "AttributeError: Unable to get event_type from event log data"
    else handle_event_log env render_lookup event_type popped.2
  else if log_data.level = "error" then
    handle_error_log env log_data.message log_data.kwargs
  else
    Except.ok [LogAction.console "warning"
      ("Received unprocessable log level: " ++ log_data.level)]

/-- State of the drain loop: the pending queue and the emitted actions. -/
structure QState where
  queue : List DelayedLog
  trace : List LogAction

/-- One iteration of BotLogger.log_from_queue: dequeue a record, process it,
and catch any exception as a console error; the loop itself never stops. -/
def log_from_queue_step (env : BotEnv) (render_lookup : String → Option EventRenderer)
    (st : QState) : QState :=
  match st.queue with
  | [] => st
  | log_data :: rest =>
    match handle_queue_log env render_lookup log_data with
    | Except.ok acts => { queue := rest, trace := st.trace ++ acts }
    | Except.error e =>
      { queue := rest,
        trace := st.trace ++ [LogAction.console "error"
          ("Could not read from log queue: " ++ e)] }

lemma getKw_append_last (kw : Kwargs) (k : String) (v : PyVal)
    (h : ∀ p ∈ kw, p.1 ≠ k) : getKw (kw ++ [(k, v)]) k = Option.some v := by
  induction kw with
  | nil => simp [getKw]
  | cons a rest ih =>
    have ha : a.1 ≠ k := h a (List.mem_cons_self a rest)
    cases a with
    | mk a1 a2 =>
      simp only [List.cons_append, getKw]
      rw [if_neg ha]
      exact ih (fun p hp => h p (List.mem_cons_of_mem _ hp))

lemma getKw_setKw (kw : Kwargs) (k : String) (v : PyVal) :
    getKw (setKw kw k v) k = Option.some v := by
  unfold setKw
  apply getKw_append_last
  intro p hp
  exact of_decide_eq_true (List.mem_filter.mp hp).2

lemma generate_log_embed_event_ok (m : String) :
    generate_log_embed (Option.some m) "event" =
      Except.ok { title := "EVENT", description := Option.some m,
                  color := LogColor.blurple, timestamp := Option.none, fields := [] } := rfl

/-- The (summary, embed) pair produced by the default event renderer. -/
def defaultEventPair (event_type : PyVal) : Option PyVal × Option Embed :=
  (Option.some (PyVal.str ("New event: " ++ pyStr event_type)),
   Option.some { title := "EVENT",
                 description := Option.some ("New event: " ++ pyStr event_type),
                 color := LogColor.blurple, timestamp := Option.none, fields := [] })

lemma render_default_event_setKw (kwargs : Kwargs) (event_type : PyVal) :
    render_default_event (setKw kwargs "event_type" event_type) =
      Except.ok (defaultEventPair event_type) := by
  unfold render_default_event defaultEventPair
  rw [getKw_setKw]
  simp [generate_log_embed_event_ok]

/-- Claim C2 failing input: an error-level record with critical true, no
channel option, remote sending enabled, and an owner lookup returning
nothing.  The code evaluates target.mention on the missing owner before the
target-is-None guard and raises, instead of warning and returning. -/
theorem error_log_critical_no_owner_bug :
    handle_error_log
      { sendFlag := true, channels := fun _ => Option.none, owner := Option.none,
        sendOutcome := fun _ => SendOutcome.ok, nowTime := PyVal.int 0,
        formatException := fun _ => "" }
      (Option.some "boom") [("critical", PyVal.bool true)] =
    Except.error "AttributeError: NoneType object has no attribute mention" := rfl

/-- Claim C3 (amended): generate_log_embed lowercases its level argument;
for any input whose lowercase form is one of the five levels it returns the
embed with the uppercased level name as title and the fixed per-level
color, and it raises the invalid-level ValueError exactly when the
lowercase form is none of the five. -/
theorem log_embed_level_table_amended (msg : Option String) (level : String) :
    (strLower level = "info" → generate_log_embed msg level =
      Except.ok { title := "INFO", description := msg, color := LogColor.green,
                  timestamp := Option.none, fields := [] }) ∧
    (strLower level = "debug" → generate_log_embed msg level =
      Except.ok { title := "DEBUG", description := msg, color := LogColor.darkGreen,
                  timestamp := Option.none, fields := [] }) ∧
    (strLower level = "warning" → generate_log_embed msg level =
      Except.ok { title := "WARNING", description := msg, color := LogColor.gold,
                  timestamp := Option.none, fields := [] }) ∧
    (strLower level = "error" → generate_log_embed msg level =
      Except.ok { title := "ERROR", description := msg, color := LogColor.red,
                  timestamp := Option.none, fields := [] }) ∧
    (strLower level = "event" → generate_log_embed msg level =
      Except.ok { title := "EVENT", description := msg, color := LogColor.blurple,
                  timestamp := Option.none, fields := [] }) ∧
    (strLower level ∉ (["info", "debug", "warning", "error", "event"] : List String) →
      generate_log_embed msg level = Except.error "invalid log level provided") := by
  refine ⟨?_, ?_, ?_, ?_, ?_, ?_⟩
  · intro h; simp only [generate_log_embed, h]; rfl
  · intro h; simp only [generate_log_embed, h]; rfl
  · intro h; simp only [generate_log_embed, h]; rfl
  · intro h; simp only [generate_log_embed, h]; rfl
  · intro h; simp only [generate_log_embed, h]; rfl
  · intro h
    simp only [List.mem_cons, List.not_mem_nil, or_false, not_or] at h
    obtain ⟨h1, h2, h3, h4, h5⟩ := h
    simp only [generate_log_embed]
    rw [if_neg h1, if_neg h2, if_neg h3, if_neg h4, if_neg h5]

/-- Witness for the amended C3 table at concrete levels. -/
theorem log_embed_level_table_amended_witness :
    generate_log_embed (Option.some "x") "warning" =
      Except.ok { title := "WARNING", description := Option.some "x",
                  color := LogColor.gold, timestamp := Option.none, fields := [] } ∧
    generate_log_embed (Option.some "x") "zzz" =
      Except.error "invalid log level provided" :=
  ⟨(log_embed_level_table_amended (Option.some "x") "warning").2.2.1 rfl,
   (log_embed_level_table_amended (Option.some "x") "zzz").2.2.2.2.2 (by decide)⟩

/-- Claim C3 counterexample: "INFO" is not one of the five level names, yet
generate_log_embed does not raise on it (the level is lowercased first), so
"raises for any other input" is false as stated. -/
theorem log_embed_case_insensitive_counterexample :
    ("INFO" ∉ (["info", "debug", "warning", "error", "event"] : List String)) ∧
    generate_log_embed (Option.some "x") "INFO" =
      Except.ok { title := "INFO", description := Option.some "x",
                  color := LogColor.green, timestamp := Option.none, fields := [] } :=
  ⟨by decide, rfl⟩

/-- Claim C8: a record is console-only exactly when the global send flag is
off, or the effective send option — the caller's send value when present,
else the per-class default (true for error records, false otherwise) — is
falsy. -/
theorem console_only_iff (sendFlag : Bool) (kwargs : Kwargs) (is_error : Bool) :
    is_console_only sendFlag kwargs is_error = true ↔
      (sendFlag = false ∨
        truthy ((getKw kwargs "send").getD
          (PyVal.bool (if is_error then true else false))) = false) := by
  unfold is_console_only DEFAULT_LOG_SEND DEFAULT_ERROR_LOG_SEND
  cases sendFlag <;> simp

/-- Claim C9: a dequeued event-level record without an event_type makes the
per-record handler raise; the drain loop catches the exception, logs a
console error and moves on to the rest of the queue. -/
theorem drain_loop_survives_bad_event_record
    (env : BotEnv) (render_lookup : String → Option EventRenderer)
    (d : DelayedLog) (rest : List DelayedLog) (trace : List LogAction)
    (hlvl : d.level = "event") (het : getKw d.kwargs "event_type" = Option.none) :
    handle_queue_log env render_lookup d =
      Except.error "AttributeError: Unable to get event_type from event log data" ∧
    log_from_queue_step env render_lookup { queue := d :: rest, trace := trace } =
      { queue := rest,
        trace := trace ++ [LogAction.console "error"
          "Could not read from log queue: AttributeError: Unable to get event_type from event log data"] } := by
  have h1 : handle_queue_log env render_lookup d =
      Except.error "AttributeError: Unable to get event_type from event log data" := by
    unfold handle_queue_log popKw
    rw [hlvl]
    simp [het, truthy]
  refine ⟨h1, ?_⟩
  simp only [log_from_queue_step, h1]
  rfl

/-- Witness for C9: a concrete event record built by DelayedLog with no
event_type (only the stamped time key). -/
theorem drain_loop_survives_bad_event_record_witness :
    handle_queue_log
      { sendFlag := true, channels := fun _ => Option.none, owner := Option.none,
        sendOutcome := fun _ => SendOutcome.ok, nowTime := PyVal.int 0,
        formatException := fun _ => "" }
      (fun _ => Option.none)
      (DelayedLog.init "event" Option.none [] [] (PyVal.int 0)) =
      Except.error "AttributeError: Unable to get event_type from event log data" ∧
    log_from_queue_step
      { sendFlag := true, channels := fun _ => Option.none, owner := Option.none,
        sendOutcome := fun _ => SendOutcome.ok, nowTime := PyVal.int 0,
        formatException := fun _ => "" }
      (fun _ => Option.none)
      { queue := [DelayedLog.init "event" Option.none [] [] (PyVal.int 0)], trace := [] } =
      { queue := [],
        trace := [LogAction.console "error"
          "Could not read from log queue: AttributeError: Unable to get event_type from event log data"] } := by
  have := drain_loop_survives_bad_event_record
    { sendFlag := true, channels := fun _ => Option.none, owner := Option.none,
      sendOutcome := fun _ => SendOutcome.ok, nowTime := PyVal.int 0,
      formatException := fun _ => "" }
    (fun _ => Option.none)
    (DelayedLog.init "event" Option.none [] [] (PyVal.int 0)) [] [] rfl rfl
  simpa using this

lemma get_object_diff_cons_skip_after (before after : PyVal) (a : String) (rest : List String)
    (h : truthy (pyGetAttrD after a PyVal.none) = false) :
    get_object_diff before after (a :: rest) = get_object_diff before after rest := by
  simp only [get_object_diff]
  simp [h]

lemma get_object_diff_cons_skip_before (before after : PyVal) (a : String) (rest : List String)
    (ha : truthy (pyGetAttrD after a PyVal.none) = true)
    (hb : truthy (pyGetAttrD before a PyVal.none) = false) :
    get_object_diff before after (a :: rest) = get_object_diff before after rest := by
  simp only [get_object_diff]
  simp [ha, hb]

lemma get_object_diff_cons_skip_eq (before after : PyVal) (a : String) (rest : List String)
    (ha : truthy (pyGetAttrD after a PyVal.none) = true)
    (hb : truthy (pyGetAttrD before a PyVal.none) = true)
    (he : pyEq (pyGetAttrD before a PyVal.none) (pyGetAttrD after a PyVal.none) = true) :
    get_object_diff before after (a :: rest) = get_object_diff before after rest := by
  simp only [get_object_diff]
  simp [ha, hb, he]

lemma get_object_diff_cons_keep (before after : PyVal) (a : String) (rest : List String)
    (ha : truthy (pyGetAttrD after a PyVal.none) = true)
    (hb : truthy (pyGetAttrD before a PyVal.none) = true)
    (he : pyEq (pyGetAttrD before a PyVal.none) (pyGetAttrD after a PyVal.none) = false) :
    get_object_diff before after (a :: rest) =
      (a, pyGetAttrD before a PyVal.none, pyGetAttrD after a PyVal.none) ::
        get_object_diff before after rest := by
  simp only [get_object_diff]
  simp [ha, hb, he]

/-- Claim C4: an entry (attr, bv, av) is in the computed diff exactly when
attr is among the checked attributes, bv and av are the attribute values
read (with default None) from the before and after snapshots, both are
truthy, and they are unequal under Python equality; in particular a missing
attribute reads as None (falsy) and is excluded, and the computation never
raises (it is a total function into plain lists). -/
theorem object_diff_mem_iff (before after : PyVal) (attrs : List String)
    (attr : String) (bv av : PyVal) :
    (attr, bv, av) ∈ get_object_diff before after attrs ↔
      (attr ∈ attrs ∧ bv = pyGetAttrD before attr PyVal.none ∧
       av = pyGetAttrD after attr PyVal.none ∧
       truthy (pyGetAttrD after attr PyVal.none) = true ∧
       truthy (pyGetAttrD before attr PyVal.none) = true ∧
       pyEq (pyGetAttrD before attr PyVal.none) (pyGetAttrD after attr PyVal.none) = false) := by
  induction attrs with
  | nil => simp [get_object_diff]
  | cons a rest ih =>
    cases hav : truthy (pyGetAttrD after a PyVal.none) with
    | false =>
      rw [get_object_diff_cons_skip_after before after a rest hav, ih]
      constructor
      · rintro ⟨hmem, h1, h2, h3, h4, h5⟩
        exact ⟨List.mem_cons_of_mem _ hmem, h1, h2, h3, h4, h5⟩
      · rintro ⟨hmem, h1, h2, h3, h4, h5⟩
        rcases List.mem_cons.mp hmem with rfl | hmem'
        · exact absurd (h3.symm.trans hav) (by decide)
        · exact ⟨hmem', h1, h2, h3, h4, h5⟩
    | true =>
      cases hbv : truthy (pyGetAttrD before a PyVal.none) with
      | false =>
        rw [get_object_diff_cons_skip_before before after a rest hav hbv, ih]
        constructor
        · rintro ⟨hmem, h1, h2, h3, h4, h5⟩
          exact ⟨List.mem_cons_of_mem _ hmem, h1, h2, h3, h4, h5⟩
        · rintro ⟨hmem, h1, h2, h3, h4, h5⟩
          rcases List.mem_cons.mp hmem with rfl | hmem'
          · exact absurd (h4.symm.trans hbv) (by decide)
          · exact ⟨hmem', h1, h2, h3, h4, h5⟩
      | true =>
        cases heq : pyEq (pyGetAttrD before a PyVal.none) (pyGetAttrD after a PyVal.none) with
        | true =>
          rw [get_object_diff_cons_skip_eq before after a rest hav hbv heq, ih]
          constructor
          · rintro ⟨hmem, h1, h2, h3, h4, h5⟩
            exact ⟨List.mem_cons_of_mem _ hmem, h1, h2, h3, h4, h5⟩
          · rintro ⟨hmem, h1, h2, h3, h4, h5⟩
            rcases List.mem_cons.mp hmem with rfl | hmem'
            · exact absurd (heq.symm.trans h5) (by decide)
            · exact ⟨hmem', h1, h2, h3, h4, h5⟩
        | false =>
          rw [get_object_diff_cons_keep before after a rest hav hbv heq]
          constructor
          · intro hmem
            rcases List.mem_cons.mp hmem with hpair | hmem'
            · have h1 : attr = a := congrArg Prod.fst hpair
              have h2 : bv = pyGetAttrD before a PyVal.none :=
                congrArg (fun p => p.2.1) hpair
              have h3 : av = pyGetAttrD after a PyVal.none :=
                congrArg (fun p => p.2.2) hpair
              subst h1
              exact ⟨List.mem_cons_self _ _, h2, h3, hav, hbv, heq⟩
            · have hr := ih.mp hmem'
              exact ⟨List.mem_cons_of_mem _ hr.1, hr.2⟩
          · rintro ⟨hmem, h1, h2, h3, h4, h5⟩
            rcases List.mem_cons.mp hmem with rfl | hmem'
            · subst h1
              subst h2
              exact List.mem_cons_self _ _
            · exact List.mem_cons_of_mem _ (ih.mpr ⟨hmem', h1, h2, h3, h4, h5⟩)

/-- Witness for C4, instantiating the membership characterisation at the
spec's own example: before name "A", after name "B". -/
theorem object_diff_mem_iff_witness :
    ("name", PyVal.str "A", PyVal.str "B") ∈
      get_object_diff (PyVal.obj [("name", PyVal.str "A")])
        (PyVal.obj [("name", PyVal.str "B")]) ["name"] :=
  (object_diff_mem_iff (PyVal.obj [("name", PyVal.str "A")])
    (PyVal.obj [("name", PyVal.str "B")]) ["name"] "name"
    (PyVal.str "A") (PyVal.str "B")).mpr
    ⟨List.mem_singleton.mpr rfl, rfl, rfl, rfl, rfl, rfl⟩

/-- Claim C5: under the claim's shape assumptions (a list-valued before
value comes with a list-valued after value whose elements are hashable),
add_diff_fields succeeds and renders exactly the spec's fields: one
"ATTR added"/"ATTR removed" field per list-valued entry (added iff the
after list is longer), valued with the comma-joined str() forms of the
symmetric difference of the two lists as sets, and a raw before/after
field pair per non-list entry, in the diff's iteration order. -/
theorem diff_fields_render_spec (diff : List (String × PyVal × PyVal)) :
    ∀ embed : Embed, diff.all wfDiffEntry = true →
      add_diff_fields embed diff = Except.ok (add_diff_fields_spec embed diff) := by
  induction diff with
  | nil =>
    intro embed _
    simp [add_diff_fields, add_diff_fields_spec]
  | cons head rest ih =>
    intro embed h
    obtain ⟨attr, bv, av⟩ := head
    rw [List.all_cons, Bool.and_eq_true] at h
    obtain ⟨hwf, hrest⟩ := h
    cases bv with
    | list bl =>
      cases av with
      | list al =>
        simp only [wfDiffEntry, Bool.and_eq_true, Bool.not_eq_true'] at hwf
        obtain ⟨hbl, hal⟩ := hwf
        simp only [add_diff_fields, pyLen, pySet, pyIter, hal, hbl, Bool.false_eq_true,
          if_false]
        rw [ih _ hrest]
        simp [add_diff_fields_spec, addField, specFieldsOf, List.append_assoc]
      | none => simp [wfDiffEntry] at hwf
      | bool b => simp [wfDiffEntry] at hwf
      | int n => simp [wfDiffEntry] at hwf
      | str s => simp [wfDiffEntry] at hwf
      | obj o => simp [wfDiffEntry] at hwf
    | none =>
      simp only [add_diff_fields]
      rw [ih _ hrest]
      simp [add_diff_fields_spec, addField, specFieldsOf, List.append_assoc]
    | bool b =>
      simp only [add_diff_fields]
      rw [ih _ hrest]
      simp [add_diff_fields_spec, addField, specFieldsOf, List.append_assoc]
    | int n =>
      simp only [add_diff_fields]
      rw [ih _ hrest]
      simp [add_diff_fields_spec, addField, specFieldsOf, List.append_assoc]
    | str s =>
      simp only [add_diff_fields]
      rw [ih _ hrest]
      simp [add_diff_fields_spec, addField, specFieldsOf, List.append_assoc]
    | obj o =>
      simp only [add_diff_fields]
      rw [ih _ hrest]
      simp [add_diff_fields_spec, addField, specFieldsOf, List.append_assoc]

/-- Witness for C5 on the spec's example diff (roles [1,2] to [1,2,3]
giving "ROLES added" = "3") plus a non-list entry. -/
theorem diff_fields_render_spec_witness :
    add_diff_fields (mkEmbed "event" LogColor.blurple (Option.some "m"))
      [("roles", PyVal.list [PyVal.int 1, PyVal.int 2],
        PyVal.list [PyVal.int 1, PyVal.int 2, PyVal.int 3]),
       ("name", PyVal.str "A", PyVal.str "B")] =
    Except.ok { title := "EVENT", description := Option.some "m",
                color := LogColor.blurple, timestamp := Option.none,
                fields := [("ROLES added", PyVal.str "3"),
                           ("NAME (before)", PyVal.str "A"),
                           ("NAME (after)", PyVal.str "B")] } := by
  rw [diff_fields_render_spec
    [("roles", PyVal.list [PyVal.int 1, PyVal.int 2],
      PyVal.list [PyVal.int 1, PyVal.int 2, PyVal.int 3]),
     ("name", PyVal.str "A", PyVal.str "B")]
    (mkEmbed "event" LogColor.blurple (Option.some "m")) (by decide)]
  rfl

/-- Claim C6: generate_event_data never raises — for every renderer table,
event type and payload it returns ok; when no renderer is registered for the
event type the default pair "New event: <event_type>" is produced directly,
and when the selected renderer raises, the error is logged to console and
the default pair is produced. -/
theorem event_data_never_raises (render_lookup : String → Option EventRenderer)
    (event_type : PyVal) (kwargs : Kwargs) :
    (∃ r, generate_event_data render_lookup event_type kwargs = Except.ok r) ∧
    (render_lookup (pyStr event_type) = Option.none →
      generate_event_data render_lookup event_type kwargs =
        Except.ok ([], defaultEventPair event_type)) ∧
    (∀ (f : EventRenderer) (e : String),
      render_lookup (pyStr event_type) = Option.some f →
      f (setKw kwargs "event_type" event_type) = Except.error e →
      generate_event_data render_lookup event_type kwargs =
        Except.ok ([LogAction.console "error"
          ("Could not render event data: " ++ e ++ " (using default render)")],
          defaultEventPair event_type)) := by
  refine ⟨?_, ?_, ?_⟩
  · cases hl : render_lookup (pyStr event_type) with
    | none =>
      refine ⟨([], defaultEventPair event_type), ?_⟩
      simp only [generate_event_data, hl, render_default_event_setKw]
    | some f =>
      cases hf : f (setKw kwargs "event_type" event_type) with
      | ok p =>
        refine ⟨([], p), ?_⟩
        simp only [generate_event_data, hl, hf]
      | error e =>
        refine ⟨([LogAction.console "error"
          ("Could not render event data: " ++ e ++ " (using default render)")],
          defaultEventPair event_type), ?_⟩
        simp only [generate_event_data, hl, hf, render_default_event_setKw]
  · intro hl
    simp only [generate_event_data, hl, render_default_event_setKw]
  · intro f e hl hf
    simp only [generate_event_data, hl, hf, render_default_event_setKw]

/-- Witness for C6: no renderer registered for event type "boom" gives the
default "New event: boom" pair. -/
theorem event_data_never_raises_witness :
    generate_event_data (fun _ => Option.none) (PyVal.str "boom") [] =
      Except.ok ([], defaultEventPair (PyVal.str "boom")) :=
  (event_data_never_raises (fun _ => Option.none) (PyVal.str "boom") []).2.1 rfl

lemma pyGetAttr_str (s a : String) :
    pyGetAttr (PyVal.str s) a = Except.error ("AttributeError: " ++ a) := rfl

lemma render_reaction_clear_event_raises (kwargs : Kwargs) :
    ∃ e, render_reaction_clear_event kwargs = Except.error e := by
  cases h1 : pyGetAttr ((getKw kwargs "message").getD PyVal.none) "channel" with
  | error e => exact ⟨e, by simp only [render_reaction_clear_event, h1]⟩
  | ok chan =>
    cases h2 : get_server_text chan PyVal.none with
    | error e => exact ⟨e, by simp only [render_reaction_clear_event, h1, h2]⟩
    | ok server_text =>
      cases h3 : pyLen ((getKw kwargs "reactions").getD PyVal.none) with
      | error e => exact ⟨e, by simp only [render_reaction_clear_event, h1, h2, h3]⟩
      | ok n =>
        cases h4 : pyGetAttr ((getKw kwargs "message").getD PyVal.none) "id" with
        | error e => exact ⟨e, by simp only [render_reaction_clear_event, h1, h2, h3, h4]⟩
        | ok mid =>
          cases h5 : pyIter ((getKw kwargs "reactions").getD PyVal.none) with
          | error e => exact ⟨e, by simp only [render_reaction_clear_event, h1, h2, h3, h4, h5]⟩
          | ok rs =>
            cases h6 : rs.mapM (fun r => pyGetAttr r "emoji") with
            | error e => exact ⟨e, by simp only [render_reaction_clear_event, h1, h2, h3, h4, h5, h6]⟩
            | ok emojis =>
              cases h7 : pyJoinComma (dedupPy emojis) with
              | error e =>
                exact ⟨e, by simp only [render_reaction_clear_event, h1, h2, h3, h4, h5, h6,
                  generate_log_embed_event_ok, h7]⟩
              | ok joined =>
                refine ⟨"AttributeError: " ++ "content", ?_⟩
                simp only [render_reaction_clear_event, h1, h2, h3, h4, h5, h6,
                  generate_log_embed_event_ok, h7, pyGetAttr_str]

/-- Claim C10: the reaction_clear renderer always raises (its rebound
message local is a string, which has no content attribute), so
generate_event_data always recovers with the default renderer and the
summary for a reaction_clear event is always "New event: reaction_clear". -/
theorem reaction_clear_always_default (kwargs : Kwargs)
    (render_lookup : String → Option EventRenderer)
    (h : render_lookup "reaction_clear" = Option.some render_reaction_clear_event) :
    (∃ e, render_reaction_clear_event
      (setKw kwargs "event_type" (PyVal.str "reaction_clear")) = Except.error e) ∧
    (∃ e, generate_event_data render_lookup (PyVal.str "reaction_clear") kwargs =
      Except.ok ([LogAction.console "error"
        ("Could not render event data: " ++ e ++ " (using default render)")],
        defaultEventPair (PyVal.str "reaction_clear"))) := by
  obtain ⟨e, he⟩ :=
    render_reaction_clear_event_raises (setKw kwargs "event_type" (PyVal.str "reaction_clear"))
  refine ⟨⟨e, he⟩, ⟨e, ?_⟩⟩
  have hps : pyStr (PyVal.str "reaction_clear") = "reaction_clear" := rfl
  simp only [generate_event_data, hps, h, he, render_default_event_setKw]

/-- Witness for C10 with a one-entry renderer table and an empty payload. -/
theorem reaction_clear_always_default_witness :
    ∃ e, generate_event_data
      (fun s => if s = "reaction_clear"
        then Option.some render_reaction_clear_event else Option.none)
      (PyVal.str "reaction_clear") [] =
      Except.ok ([LogAction.console "error"
        ("Could not render event data: " ++ e ++ " (using default render)")],
        defaultEventPair (PyVal.str "reaction_clear")) :=
  (reaction_clear_always_default []
    (fun s => if s = "reaction_clear"
      then Option.some render_reaction_clear_event else Option.none)
    (by simp)).2

lemma generate_log_embed_error_ok (m : Option String) :
    generate_log_embed m "error" =
      Except.ok { title := "ERROR", description := m,
                  color := LogColor.red, timestamp := Option.none, fields := [] } := rfl

lemma truthy_new_event_str (et : PyVal) :
    truthy (PyVal.str ("New event: " ++ pyStr et)) = true := by
  simp only [truthy, Bool.not_eq_true']
  rw [beq_eq_false_iff_ne]
  intro h
  have hd : ("New event: ").data ++ (pyStr et).data = ([] : List Char) := by
    rw [← String.data_append, h]
  have hne : ("New event: ").data = ([] : List Char) := (List.append_eq_nil.mp hd).1
  exact absurd hne (by decide)

lemma generate_event_data_default (render_lookup : String → Option EventRenderer)
    (event_type : PyVal) (kwargs : Kwargs)
    (hl : render_lookup (pyStr event_type) = Option.none) :
    generate_event_data render_lookup event_type kwargs =
      Except.ok ([], defaultEventPair event_type) := by
  simp only [generate_event_data, hl, render_default_event_setKw]

/-- Claim C1 (amended): in the non-queued path a caller-supplied time kwarg
is the timestamp of the delivered embed (shown for the generic info/debug/
warning handler, the error handler and the event handler); in the queued
path, however, DelayedLog's constructor unconditionally overwrites the time
kwarg with the enqueue-time stamp, so the record's time is always the
enqueue time and a caller-supplied value is discarded. -/
theorem time_option_override_amended :
    (∀ (env : BotEnv) (message : Option String) (level_ : String) (kwargs : Kwargs)
        (T : PyVal) (t : Target) (e0 : Embed),
      is_console_only env.sendFlag kwargs false = false →
      truthy ((getKw kwargs "channel").getD PyVal.none) = false →
      env.owner = Option.some t →
      getKw kwargs "time" = Option.some T →
      env.sendOutcome 0 = SendOutcome.ok →
      generate_log_embed message level_ = Except.ok e0 →
      handle_generic_log env message level_ kwargs =
        Except.ok [LogAction.console level_ (consoleStr message),
          LogAction.sent t Option.none { e0 with timestamp := Option.some T }]) ∧
    (∀ (env : BotEnv) (message : Option String) (kwargs : Kwargs) (T : PyVal) (t : Target),
      is_console_only env.sendFlag kwargs true = false →
      truthy ((getKw kwargs "channel").getD PyVal.none) = false →
      env.owner = Option.some t →
      truthy ((getKw kwargs "critical").getD PyVal.none) = false →
      getKw kwargs "time" = Option.some T →
      env.sendOutcome 0 = SendOutcome.ok →
      env.sendOutcome 1 = SendOutcome.ok →
      handle_error_log env message kwargs =
        Except.ok [LogAction.console "error" (consoleStr message),
          LogAction.sent t Option.none
            { title := "ERROR", description := message, color := LogColor.red,
              timestamp := Option.some T, fields := [] },
          LogAction.sentText t ("```py\n" ++
            strTake (env.formatException ((getKw kwargs "exception").getD PyVal.none)) 1992
            ++ "```")]) ∧
    (∀ (env : BotEnv) (render_lookup : String → Option EventRenderer)
        (event_type : PyVal) (kwargs : Kwargs) (T : PyVal) (t : Target),
      render_lookup (pyStr event_type) = Option.none →
      is_console_only env.sendFlag kwargs false = false →
      truthy ((getKw kwargs "channel").getD PyVal.none) = false →
      env.owner = Option.some t →
      getKw kwargs "time" = Option.some T →
      env.sendOutcome 0 = SendOutcome.ok →
      handle_event_log env render_lookup event_type kwargs =
        Except.ok [LogAction.console "info" ("New event: " ++ pyStr event_type),
          LogAction.sent t Option.none
            { title := "EVENT",
              description := Option.some ("New event: " ++ pyStr event_type),
              color := LogColor.blurple, timestamp := Option.some T, fields := [] }]) ∧
    (∀ (level : String) (log_message : Option String) (args : List PyVal)
        (kwargs : Kwargs) (now : PyVal),
      getKw (DelayedLog.init level log_message args kwargs now).kwargs "time" =
        Option.some now) := by
  refine ⟨?_, ?_, ?_, ?_⟩
  · intro env message level_ kwargs T t e0 hco hch hown ht hout hemb
    simp only [handle_generic_log, resolveChannel, hco, hch, hown, ht, hout, hemb,
      Bool.false_eq_true, if_false, Option.getD_some]
    rfl
  · intro env message kwargs T t hco hch hown hcrit ht hout0 hout1
    simp only [handle_error_log, resolveChannel, generate_log_embed_error_ok,
      hco, hch, hown, hcrit, ht, hout0, hout1,
      Bool.false_eq_true, if_false, Option.getD_some]
    rfl
  · intro env render_lookup event_type kwargs T t hl hco hch hown ht hout
    simp only [handle_event_log,
      generate_event_data_default render_lookup event_type kwargs hl,
      resolveChannel, defaultEventPair, hco, hch, hown, ht, hout,
      Bool.false_eq_true, if_false, Option.getD_some,
      truthy_new_event_str, Bool.not_true, pyStr]
    rfl
  · intro level log_message args kwargs now
    exact getKw_setKw kwargs "time" now

/-- The owner target used by the concrete execution examples. -/
def tOwner : Target := { tid := 1, mention := "@owner", guildOwnerMention := "@g" }

/-- A fully-working delivery environment: sending enabled, no channels, an
owner target, every send succeeding. -/
def envOk : BotEnv :=
  { sendFlag := true, channels := fun _ => Option.none, owner := Option.some tOwner,
    sendOutcome := fun _ => SendOutcome.ok, nowTime := PyVal.int 99,
    formatException := fun _ => "tb" }

/-- Claim C1 counterexample: an info record enqueued with an explicit
time=5 kwarg but enqueue time 7 is stamped to 7 by DelayedLog, and the
drain loop delivers the embed with timestamp 7, not the caller's 5. -/
theorem queued_time_option_ignored_counterexample :
    getKw (DelayedLog.init "info" (Option.some "m") []
      [("send", PyVal.bool true), ("time", PyVal.int 5)] (PyVal.int 7)).kwargs "time" =
      Option.some (PyVal.int 7) ∧
    log_from_queue_step envOk (fun _ => Option.none)
      { queue := [DelayedLog.init "info" (Option.some "m") []
          [("send", PyVal.bool true), ("time", PyVal.int 5)] (PyVal.int 7)], trace := [] } =
      { queue := [],
        trace := [LogAction.console "info" "m",
          LogAction.sent tOwner Option.none
            { title := "INFO", description := Option.some "m", color := LogColor.green,
              timestamp := Option.some (PyVal.int 7), fields := [] }] } ∧
    pyEq (PyVal.int 7) (PyVal.int 5) = false :=
  ⟨rfl, rfl, rfl⟩

/-- Witness for the amended C1 at a concrete non-queued info call with
time=5, delivered with timestamp 5. -/
theorem time_option_override_amended_witness :
    handle_generic_log envOk (Option.some "m") "info"
      [("send", PyVal.bool true), ("time", PyVal.int 5)] =
      Except.ok [LogAction.console "info" "m",
        LogAction.sent tOwner Option.none
          { title := "INFO", description := Option.some "m", color := LogColor.green,
            timestamp := Option.some (PyVal.int 5), fields := [] }] :=
  time_option_override_amended.1 envOk (Option.some "m") "info"
    [("send", PyVal.bool true), ("time", PyVal.int 5)]
    (PyVal.int 5) tOwner
    { title := "INFO", description := Option.some "m", color := LogColor.green,
      timestamp := Option.none, fields := [] }
    rfl rfl rfl rfl rfl rfl

/-- Claim C7: in the non-queued path, once a delivery target is resolved
(explicit channel or fallback owner), a Forbidden outcome of the send
primitive is swallowed (the handler still returns normally) while any other
send failure propagates as-is to the caller; shown for the generic handler,
the error handler and the event handler, for both target resolution
modes. -/
theorem forbidden_swallowed_others_propagate :
    (∀ (env : BotEnv) (message : Option String) (level_ : String) (kwargs : Kwargs)
        (t : Target) (e0 : Embed),
      is_console_only env.sendFlag kwargs false = false →
      truthy ((getKw kwargs "channel").getD PyVal.none) = false →
      env.owner = Option.some t →
      generate_log_embed message level_ = Except.ok e0 →
      ((env.sendOutcome 0 = SendOutcome.forbidden →
        handle_generic_log env message level_ kwargs =
          Except.ok [LogAction.console level_ (consoleStr message)]) ∧
       (∀ e, env.sendOutcome 0 = SendOutcome.err e →
        handle_generic_log env message level_ kwargs = Except.error e))) ∧
    (∀ (env : BotEnv) (message : Option String) (level_ : String) (kwargs : Kwargs)
        (c : Int) (t : Target) (e0 : Embed),
      is_console_only env.sendFlag kwargs false = false →
      getKw kwargs "channel" = Option.some (PyVal.int c) →
      truthy (PyVal.int c) = true →
      env.channels c = Option.some t →
      generate_log_embed message level_ = Except.ok e0 →
      ((env.sendOutcome 0 = SendOutcome.forbidden →
        handle_generic_log env message level_ kwargs =
          Except.ok [LogAction.console level_ (consoleStr message)]) ∧
       (∀ e, env.sendOutcome 0 = SendOutcome.err e →
        handle_generic_log env message level_ kwargs = Except.error e))) ∧
    (∀ (env : BotEnv) (message : Option String) (kwargs : Kwargs) (t : Target),
      is_console_only env.sendFlag kwargs true = false →
      truthy ((getKw kwargs "channel").getD PyVal.none) = false →
      env.owner = Option.some t →
      ((env.sendOutcome 0 = SendOutcome.forbidden →
        handle_error_log env message kwargs =
          Except.ok [LogAction.console "error" (consoleStr message)]) ∧
       (∀ e, env.sendOutcome 0 = SendOutcome.err e →
        handle_error_log env message kwargs = Except.error e) ∧
       (∀ e, env.sendOutcome 0 = SendOutcome.ok → env.sendOutcome 1 = SendOutcome.err e →
        handle_error_log env message kwargs = Except.error e) ∧
       (env.sendOutcome 0 = SendOutcome.ok → env.sendOutcome 1 = SendOutcome.forbidden →
        ∃ acts, handle_error_log env message kwargs = Except.ok acts))) ∧
    (∀ (env : BotEnv) (message : Option String) (kwargs : Kwargs) (c : Int) (t : Target),
      is_console_only env.sendFlag kwargs true = false →
      getKw kwargs "channel" = Option.some (PyVal.int c) →
      truthy (PyVal.int c) = true →
      env.channels c = Option.some t →
      ((env.sendOutcome 0 = SendOutcome.forbidden →
        handle_error_log env message kwargs =
          Except.ok [LogAction.console "error" (consoleStr message)]) ∧
       (∀ e, env.sendOutcome 0 = SendOutcome.err e →
        handle_error_log env message kwargs = Except.error e) ∧
       (∀ e, env.sendOutcome 0 = SendOutcome.ok → env.sendOutcome 1 = SendOutcome.err e →
        handle_error_log env message kwargs = Except.error e) ∧
       (env.sendOutcome 0 = SendOutcome.ok → env.sendOutcome 1 = SendOutcome.forbidden →
        ∃ acts, handle_error_log env message kwargs = Except.ok acts))) ∧
    (∀ (env : BotEnv) (render_lookup : String → Option EventRenderer)
        (event_type : PyVal) (kwargs : Kwargs) (racts : List LogAction)
        (msg : PyVal) (embed0 : Embed) (t : Target),
      generate_event_data render_lookup event_type kwargs =
        Except.ok (racts, (Option.some msg, Option.some embed0)) →
      truthy msg = true →
      is_console_only env.sendFlag kwargs false = false →
      truthy ((getKw kwargs "channel").getD PyVal.none) = false →
      env.owner = Option.some t →
      ((env.sendOutcome 0 = SendOutcome.forbidden →
        handle_event_log env render_lookup event_type kwargs =
          Except.ok (racts ++ [LogAction.console "info" (pyStr msg)])) ∧
       (∀ e, env.sendOutcome 0 = SendOutcome.err e →
        handle_event_log env render_lookup event_type kwargs = Except.error e))) ∧
    (∀ (env : BotEnv) (render_lookup : String → Option EventRenderer)
        (event_type : PyVal) (kwargs : Kwargs) (racts : List LogAction)
        (msg : PyVal) (embed0 : Embed) (c : Int) (t : Target),
      generate_event_data render_lookup event_type kwargs =
        Except.ok (racts, (Option.some msg, Option.some embed0)) →
      truthy msg = true →
      is_console_only env.sendFlag kwargs false = false →
      getKw kwargs "channel" = Option.some (PyVal.int c) →
      truthy (PyVal.int c) = true →
      env.channels c = Option.some t →
      ((env.sendOutcome 0 = SendOutcome.forbidden →
        handle_event_log env render_lookup event_type kwargs =
          Except.ok (racts ++ [LogAction.console "info" (pyStr msg)])) ∧
       (∀ e, env.sendOutcome 0 = SendOutcome.err e →
        handle_event_log env render_lookup event_type kwargs = Except.error e))) := by
  refine ⟨?_, ?_, ?_, ?_, ?_, ?_⟩
  · intro env message level_ kwargs t e0 hco hch hown hemb
    refine ⟨?_, ?_⟩
    · intro hout
      simp only [handle_generic_log, resolveChannel, hco, hch, hown, hemb, hout,
        Bool.false_eq_true, if_false]
    · intro e hout
      simp only [handle_generic_log, resolveChannel, hco, hch, hown, hemb, hout,
        Bool.false_eq_true, if_false]
  · intro env message level_ kwargs c t e0 hco hch htr hc hemb
    refine ⟨?_, ?_⟩
    · intro hout
      simp only [handle_generic_log, resolveChannel, pyToInt, hco, hch, htr, hc, hemb, hout,
        Option.getD_some, if_true, Bool.false_eq_true, if_false]
    · intro e hout
      simp only [handle_generic_log, resolveChannel, pyToInt, hco, hch, htr, hc, hemb, hout,
        Option.getD_some, if_true, Bool.false_eq_true, if_false]
  · intro env message kwargs t hco hch hown
    refine ⟨?_, ?_, ?_, ?_⟩
    · intro hout
      simp only [handle_error_log, resolveChannel, generate_log_embed_error_ok,
        hco, hch, hown, hout, Bool.false_eq_true, if_false]
    · intro e hout
      simp only [handle_error_log, resolveChannel, generate_log_embed_error_ok,
        hco, hch, hown, hout, Bool.false_eq_true, if_false]
    · intro e hout0 hout1
      simp only [handle_error_log, resolveChannel, generate_log_embed_error_ok,
        hco, hch, hown, hout0, hout1, Bool.false_eq_true, if_false]
    · intro hout0 hout1
      simp only [handle_error_log, resolveChannel, generate_log_embed_error_ok,
        hco, hch, hown, hout0, hout1, Bool.false_eq_true, if_false]
      exact ⟨_, rfl⟩
  · intro env message kwargs c t hco hch htr hc
    refine ⟨?_, ?_, ?_, ?_⟩
    · intro hout
      simp only [handle_error_log, resolveChannel, pyToInt, generate_log_embed_error_ok,
        hco, hch, htr, hc, hout, Option.getD_some, if_true, Bool.false_eq_true, if_false]
    · intro e hout
      simp only [handle_error_log, resolveChannel, pyToInt, generate_log_embed_error_ok,
        hco, hch, htr, hc, hout, Option.getD_some, if_true, Bool.false_eq_true, if_false]
    · intro e hout0 hout1
      simp only [handle_error_log, resolveChannel, pyToInt, generate_log_embed_error_ok,
        hco, hch, htr, hc, hout0, hout1, Option.getD_some, if_true, Bool.false_eq_true, if_false]
    · intro hout0 hout1
      simp only [handle_error_log, resolveChannel, pyToInt, generate_log_embed_error_ok,
        hco, hch, htr, hc, hout0, hout1, Option.getD_some, if_true, Bool.false_eq_true, if_false]
      exact ⟨_, rfl⟩
  · intro env render_lookup event_type kwargs racts msg embed0 t hgen htm hco hch hown
    refine ⟨?_, ?_⟩
    · intro hout
      simp only [handle_event_log, hgen, resolveChannel, hco, hch, hown, hout,
        Option.getD_some, htm, Bool.not_true, Bool.false_eq_true, if_false]
    · intro e hout
      simp only [handle_event_log, hgen, resolveChannel, hco, hch, hown, hout,
        Option.getD_some, htm, Bool.not_true, Bool.false_eq_true, if_false]
  · intro env render_lookup event_type kwargs racts msg embed0 c t hgen htm hco hch htr hc
    refine ⟨?_, ?_⟩
    · intro hout
      simp only [handle_event_log, hgen, resolveChannel, pyToInt, hco, hch, htr, hc, hout,
        Option.getD_some, htm, Bool.not_true, Bool.false_eq_true, if_false, if_true]
    · intro e hout
      simp only [handle_event_log, hgen, resolveChannel, pyToInt, hco, hch, htr, hc, hout,
        Option.getD_some, htm, Bool.not_true, Bool.false_eq_true, if_false, if_true]

/-- An environment whose only send outcome is Forbidden. -/
def envForbidden : BotEnv :=
  { sendFlag := true, channels := fun _ => Option.none, owner := Option.some tOwner,
    sendOutcome := fun _ => SendOutcome.forbidden, nowTime := PyVal.int 99,
    formatException := fun _ => "tb" }

/-- An environment whose sends raise a non-Forbidden error. -/
def envNetErr : BotEnv :=
  { sendFlag := true, channels := fun _ => Option.none, owner := Option.some tOwner,
    sendOutcome := fun _ => SendOutcome.err "HTTPException", nowTime := PyVal.int 99,
    formatException := fun _ => "tb" }

/-- Witness for C7: with the owner target resolved, a Forbidden send leaves
the info call (and an event call) returning normally with only the console
action, and a network error propagates out of the handler. -/
theorem forbidden_swallowed_others_propagate_witness :
    handle_generic_log envForbidden (Option.some "m") "info"
      [("send", PyVal.bool true)] =
      Except.ok [LogAction.console "info" "m"] ∧
    handle_generic_log envNetErr (Option.some "m") "info"
      [("send", PyVal.bool true)] = Except.error "HTTPException" ∧
    handle_event_log envForbidden (fun _ => Option.none) (PyVal.str "boom")
      [("send", PyVal.bool true)] =
      Except.ok [LogAction.console "info" "New event: boom"] ∧
    handle_event_log envNetErr (fun _ => Option.none) (PyVal.str "boom")
      [("send", PyVal.bool true)] = Except.error "HTTPException" :=
  ⟨(forbidden_swallowed_others_propagate.1 envForbidden (Option.some "m") "info"
      [("send", PyVal.bool true)] tOwner
      { title := "INFO", description := Option.some "m", color := LogColor.green,
        timestamp := Option.none, fields := [] } rfl rfl rfl rfl).1 rfl,
   (forbidden_swallowed_others_propagate.1 envNetErr (Option.some "m") "info"
      [("send", PyVal.bool true)] tOwner
      { title := "INFO", description := Option.some "m", color := LogColor.green,
        timestamp := Option.none, fields := [] } rfl rfl rfl rfl).2 "HTTPException" rfl,
   (forbidden_swallowed_others_propagate.2.2.2.2.1 envForbidden
      (fun _ => Option.none) (PyVal.str "boom") [("send", PyVal.bool true)]
      [] (PyVal.str "New event: boom")
      { title := "EVENT", description := Option.some "New event: boom",
        color := LogColor.blurple, timestamp := Option.none, fields := [] }
      tOwner rfl rfl rfl rfl rfl).1 rfl,
   (forbidden_swallowed_others_propagate.2.2.2.2.1 envNetErr
      (fun _ => Option.none) (PyVal.str "boom") [("send", PyVal.bool true)]
      [] (PyVal.str "New event: boom")
      { title := "EVENT", description := Option.some "New event: boom",
        color := LogColor.blurple, timestamp := Option.none, fields := [] }
      tOwner rfl rfl rfl rfl rfl).2 "HTTPException" rfl⟩
